import Mathlib

/-! Verification of enthus-golang/google-cloud: identity tokens and project resolution.

A shallow embedding of `pkg/authentication/auth.go` and `pkg/project/project.go`.

Go calls that leave the repository (the `idtoken`, `google`, `oauth2`, `metadata`,
`os` and `net/http` packages) are answered by a *world* record; every function of the
repository returns its Go result together with the list of outside calls it made, in
program order, so that "is invoked", "is never invoked" and "exactly once" are
statements about that list.

A Go return `(x, nil)` is `Except.ok x`, a Go return `(nil, err)` is `Except.error err`.
Go strings are Lean strings; pointers and interface values that the code dereferences
(the request, its header map, the wrapped token source, the inner transport) are
allocated, as `http.NewRequest` and `http.Client` provide them.
-/

namespace GoogleCloud

/-! ## Go values -/

/-- A Go `error` value. `leaf msg` has no cause; `wrap msg cause` is an error whose
`Unwrap()` is `cause`, as `fmt.Errorf` builds for the verb `%w`. -/
inductive GoError where
  | leaf (msg : String)
  | wrap (msg : String) (cause : GoError)
  deriving DecidableEq, Repr

/-- The method `Error()`: the text of an error. -/
def GoError.Error : GoError → String
  | .leaf msg => msg
  | .wrap msg _ => msg

/-- The method `Unwrap()`: the wrapped cause, if any. -/
def GoError.Unwrap : GoError → Option GoError
  | .leaf _ => none
  | .wrap _ cause => some cause

/-- The call `fmt.Errorf(msg)` for a format string without verbs. -/
def fmtErrorf (msg : String) : GoError :=
  .leaf msg

/-- The call `fmt.Errorf(pre + "%w", err)`: the text is `pre` followed by the text of
`err`, and the result wraps `err`. -/
def fmtErrorfW (pre : String) (err : GoError) : GoError :=
  .wrap (pre ++ err.Error) err

/-- Substring search on character lists: does `substr` occur in the list, at any
position. -/
def containsChars (substr : List Char) : List Char → Bool
  | [] => substr.isPrefixOf []
  | c :: cs => substr.isPrefixOf (c :: cs) || containsChars substr cs

/-- The call `strings.Contains(s, substr)`. -/
def stringsContains (s substr : String) : Bool :=
  containsChars substr.toList s.toList

/-- A `context.Context`, passed through to the libraries and never inspected here. -/
structure Context where
  id : Nat
  deriving DecidableEq, Repr

/-- A `time.Time`, copied whole and never inspected here. -/
structure Time where
  ticks : Int
  deriving DecidableEq, Repr

/-- A Go `interface{}` value, by dynamic type. -/
inductive GoAny where
  | nil
  | string (s : String)
  | int64 (i : Int)
  | bool (b : Bool)
  | other (typeName : String)
  deriving DecidableEq, Repr

/-- The type assertion `v.(string)` in its two-result form. -/
def GoAny.assertString : GoAny → String × Bool
  | .string s => (s, true)
  | _ => ("", false)

/-! ## Library types of `pkg/authentication` -/

/-- An `oauth2.Token`. `extra key` is what the library method `Extra(key)` returns for
this token; a token built by a struct literal has no raw data, so its `Extra` is nil
for every key. -/
structure Token where
  AccessToken : String
  TokenType : String
  RefreshToken : String
  Expiry : Time
  extra : String → GoAny

/-- The method `(*oauth2.Token).Extra`. -/
def Token.Extra (t : Token) (key : String) : GoAny :=
  t.extra key

/-- The raw data an `oauth2.Token` keeps from the token response, from which `Extra`
answers:
* `nil`: no raw data, as for a token built by a struct literal;
* `json fields`: a `map[string]interface{}`, decoded from a JSON response;
* `form values`: a `url.Values`, decoded from a form-encoded response. -/
inductive TokenRaw where
  | nil
  | json (fields : String → Option GoAny)
  | form (values : String → Option (List String))

/-- The method `url.Values.Get`: the first value of the key, the empty string when the
key has no value. -/
def urlValuesGet (values : String → Option (List String)) (key : String) : String :=
  match values key with
  | some (v :: _) => v
  | _ => ""

/-- The function `unicode.IsSpace`. -/
def unicodeIsSpace (c : Char) : Bool :=
  [0x09, 0x0A, 0x0B, 0x0C, 0x0D, 0x20, 0x85, 0xA0, 0x1680, 0x2028, 0x2029, 0x202F,
    0x205F, 0x3000].contains c.toNat || (0x2000 ≤ c.toNat && c.toNat ≤ 0x200A)

/-- The function `strings.TrimSpace`. -/
def stringsTrimSpace (s : String) : String :=
  String.mk ((s.toList.dropWhile unicodeIsSpace).reverse.dropWhile unicodeIsSpace).reverse

/-- The value of a list of decimal digits. -/
def decimalValue (ds : List Char) : Nat :=
  ds.foldl (fun n c => 10 * n + (c.toNat - 48)) 0

/-- The call `strconv.ParseInt(s, 10, 64)`: an optional sign and at least one decimal
digit, with a value that fits 64 signed bits; `none` stands for a returned error. -/
def strconvParseInt (s : String) : Option Int :=
  let neg := s.toList.head? == some '-'
  let ds := if s.toList.head? == some '+' || neg then s.toList.tail else s.toList
  if ds.isEmpty || !ds.all Char.isDigit then none
  else if neg then
    if decimalValue ds ≤ 2 ^ 63 then some (-(decimalValue ds : Int)) else none
  else
    if decimalValue ds < 2 ^ 63 then some (decimalValue ds : Int) else none

/-- The method `(*oauth2.Token).Extra` in terms of the raw data. A missing key of a JSON
object gives nil. A form value is trimmed and, by the number of dots in it, tried as an
integer or as a float, and is returned as the untrimmed string otherwise; a missing key
of a form has the value `""`. Whether `strconv.ParseFloat(s, 64)` succeeds is the
parameter `parseFloatOk`. -/
def TokenRaw.Extra (parseFloatOk : String → Bool) : TokenRaw → String → GoAny
  | .nil, _ => GoAny.nil
  | .json fields, key => (fields key).getD GoAny.nil
  | .form values, key =>
    let v := urlValuesGet values key
    let s := stringsTrimSpace v
    match s.toList.count '.' with
    | 0 =>
      match strconvParseInt s with
      | some i => GoAny.int64 i
      | none => GoAny.string v
    | 1 => if parseFloatOk s then GoAny.other "float64" else GoAny.string v
    | _ => GoAny.string v

/-- An `oauth2.TokenSource` value.
* `lib h`: a source built by a library, named by the handle `h`;
* `idTokenSource ts`: the value `&idTokenSource{TokenSource: ts}` of this repository;
* `reuse new`: the value `oauth2.ReuseTokenSource(nil, new)`. -/
inductive TokenSource where
  | lib (handle : Nat)
  | idTokenSource (TokenSource : TokenSource)
  | reuse (new : TokenSource)
  deriving DecidableEq, Repr

/-- An `http.Header`: a map from keys to lists of values. -/
abbrev Header := String → Option (List String)

/-- The bytes `net/textproto` accepts in a header field name. -/
def validHeaderFieldByte (c : Char) : Bool :=
  c.isAlphanum || "!#$%&'*+-.^_`|~".toList.contains c

/-- The rewriting loop of `textproto.CanonicalMIMEHeaderKey`: upper case for the first
letter and for a letter after a hyphen, lower case for every other letter. -/
def canonicalLoop : Bool → List Char → List Char
  | _, [] => []
  | upper, c :: cs =>
    let d := if upper then c.toUpper else c.toLower
    d :: canonicalLoop (d == '-') cs

/-- The function `textproto.CanonicalMIMEHeaderKey`: a key holding a byte that is not
valid in a field name is returned unchanged. -/
def CanonicalMIMEHeaderKey (s : String) : String :=
  if s.toList.all validHeaderFieldByte then String.mk (canonicalLoop true s.toList) else s

/-- The method `Header.Set(key, value)`: the entry of the canonical key becomes the
one-element list `[value]`; no other entry changes. -/
def Header.Set (h : Header) (key value : String) : Header :=
  fun k => if k = CanonicalMIMEHeaderKey key then some [value] else h k

/-- An `http.Request`, as far as a transport can observe it. -/
structure Request where
  Method : String
  URL : String
  Header : Header
  Body : String
  ctx : Context

/-- The method `(*http.Request).Context`. -/
def Request.Context (req : Request) : Context :=
  req.ctx

/-- An `http.Response`. -/
structure Response where
  StatusCode : Nat
  Body : String
  deriving DecidableEq, Repr

/-- An `http.RoundTripper` from outside the repository: the pair `(response, error)` it
returns for a request. -/
abbrev RoundTripper := Request → Option Response × Option GoError

/-- An outside call made by `pkg/authentication`. -/
inductive Call where
  | idtokenNewTokenSource (ctx : Context) (audience : String)
  | googleDefaultTokenSource (ctx : Context)
  | libToken (handle : Nat)
  | transportRoundTrip (req : Request)

/-- Is the call a call of `google.DefaultTokenSource`, the fallback mechanism. -/
def Call.isDefaultTokenSource : Call → Bool
  | .googleDefaultTokenSource _ => true
  | _ => false

/-- Is the call a call of the inner transport. -/
def Call.isTransport : Call → Bool
  | .transportRoundTrip _ => true
  | _ => false

/-- The libraries `pkg/authentication` calls. -/
structure AuthWorld where
  /-- The result of `idtoken.NewTokenSource(ctx, audience)`. -/
  NewTokenSource : Context → String → Except GoError TokenSource
  /-- The result of `google.DefaultTokenSource(ctx)`. -/
  DefaultTokenSource : Context → Except GoError TokenSource
  /-- The result of `Token()` on the library source with the given handle. -/
  libToken : Nat → Except GoError Token

/-! ## `pkg/authentication/auth.go` -/

mutual

/-- Dynamic dispatch of `Token()` on an `oauth2.TokenSource`. A source made by
`oauth2.ReuseTokenSource(nil, new)` holds no token yet, so its first `Token()` asks
`new`. -/
def TokenSource.Token (w : AuthWorld) : TokenSource → Except GoError Token × List Call
  | .lib h => (w.libToken h, [Call.libToken h])
  | .idTokenSource ts => idTokenSource.Token w ts
  | .reuse new => TokenSource.Token w new

/-- The method `(*idTokenSource).Token` for the receiver `&idTokenSource{TokenSource: ts}`. -/
def idTokenSource.Token (w : AuthWorld) (ts : TokenSource) :
    Except GoError Token × List Call :=
  match TokenSource.Token w ts with
  | (.error err, calls) => (.error err, calls)
  | (.ok token, calls) =>
    match (token.Extra "id_token").assertString with
    | (_, false) => (.error (fmtErrorf "token did not contain an id_token"), calls)
    | (idToken, true) =>
      (.ok { AccessToken := idToken, TokenType := "Bearer", RefreshToken := "",
             Expiry := token.Expiry, extra := fun _ => GoAny.nil }, calls)

end

/-- The function `IDTokenTokenSource`. -/
def IDTokenTokenSource (w : AuthWorld) (ctx : Context) (audience : String) :
    Except GoError TokenSource × List Call :=
  match w.NewTokenSource ctx audience with
  | .error err =>
    if !stringsContains err.Error "idtoken: unsupported credentials type" then
      (.error err, [Call.idtokenNewTokenSource ctx audience])
    else
      match w.DefaultTokenSource ctx with
      | .error err =>
        (.error err, [Call.idtokenNewTokenSource ctx audience, Call.googleDefaultTokenSource ctx])
      | .ok gts =>
        (.ok (.reuse (.idTokenSource gts)),
          [Call.idtokenNewTokenSource ctx audience, Call.googleDefaultTokenSource ctx])
  | .ok ts => (.ok ts, [Call.idtokenNewTokenSource ctx audience])

/-- The type `AuthTransport`. -/
structure AuthTransport where
  Transport : RoundTripper
  Audience : String

/-- What a call of `RoundTrip` leaves behind: the returned pair, the request as the
caller sees it afterwards (it is passed by pointer), and the outside calls made. -/
structure RoundTripResult where
  resp : Option Response
  err : Option GoError
  req : Request
  calls : List Call

/-- The method `(*AuthTransport).RoundTrip`. -/
def AuthTransport.RoundTrip (w : AuthWorld) (t : AuthTransport) (req : Request) :
    RoundTripResult :=
  match IDTokenTokenSource w req.Context t.Audience with
  | (.error err, calls) =>
    { resp := none, err := some (fmtErrorfW "failed to create token source: " err),
      req := req, calls := calls }
  | (.ok tokenSource, calls) =>
    match tokenSource.Token w with
    | (.error err, calls2) =>
      { resp := none, err := some (fmtErrorfW "failed to get token: " err),
        req := req, calls := calls ++ calls2 }
    | (.ok token, calls2) =>
      let req2 : Request :=
        { req with Header := req.Header.Set "Authorization" ("Bearer " ++ token.AccessToken) }
      { resp := (t.Transport req2).1, err := (t.Transport req2).2,
        req := req2, calls := calls ++ calls2 ++ [Call.transportRoundTrip req2] }

/-! ## `pkg/project/project.go` -/

/-- An outside call made by `pkg/project`: a query to the metadata service. -/
inductive MetadataCall where
  | ProjectIDWithContext (ctx : Context)
  deriving DecidableEq, Repr

/-- What `pkg/project` reads from outside. -/
structure ProjectWorld where
  /-- The process environment: the value of a variable, if it is set. -/
  environ : String → Option String
  /-- The result of `metadata.ProjectIDWithContext(ctx)`. -/
  ProjectIDWithContext : Context → Except GoError String

/-- The call `os.Getenv(key)`: the empty string when the variable is not set. -/
def osGetenv (w : ProjectWorld) (key : String) : String :=
  (w.environ key).getD ""

/-- The function `ProjectID`: the returned pair `(string, error)` and the queries made
to the metadata service. -/
def ProjectID (w : ProjectWorld) (ctx : Context) :
    (String × Option GoError) × List MetadataCall :=
  let googleCloudProject := osGetenv w "GOOGLE_CLOUD_PROJECT"
  if googleCloudProject != "" then
    ((googleCloudProject, none), [])
  else
    match w.ProjectIDWithContext ctx with
    | .error err =>
      (("", some (fmtErrorfW "project id: " err)), [MetadataCall.ProjectIDWithContext ctx])
    | .ok projectID =>
      ((projectID, none), [MetadataCall.ProjectIDWithContext ctx])

/-! ## Concrete worlds used to instantiate the theorems -/

/-- The text with which `idtoken.NewTokenSource` rejects credentials that are not a
service account. -/
def unsupportedErr : GoError :=
  .leaf "idtoken: unsupported credentials type: authorized_user"

/-- A token as a default-credentials source returns it: an access token and the raw
field `id_token` holding the string `xyz`. -/
def adcToken : Token :=
  { AccessToken := "ya29.access", TokenType := "Bearer", RefreshToken := "r",
    Expiry := ⟨1700000000⟩,
    extra := fun k => if k = "id_token" then GoAny.string "xyz" else GoAny.nil }

/-- A world with a working service account: the specialized mechanism returns the
library source 1, whose token is `abc`. -/
def saWorld : AuthWorld :=
  { NewTokenSource := fun _ _ => .ok (.lib 1),
    DefaultTokenSource := fun _ => .error (.leaf "must not be called"),
    libToken := fun _ =>
      .ok { AccessToken := "abc", TokenType := "Bearer", RefreshToken := "",
            Expiry := ⟨42⟩, extra := fun _ => GoAny.nil } }

/-- A world with user credentials: the specialized mechanism reports the unsupported
credentials type, the default credentials give the library source 7, whose token is
`adcToken`. -/
def userWorld : AuthWorld :=
  { NewTokenSource := fun _ _ => .error unsupportedErr,
    DefaultTokenSource := fun _ => .ok (.lib 7),
    libToken := fun _ => .ok adcToken }

/-- A world in which the specialized mechanism fails for another reason. -/
def brokenWorld : AuthWorld :=
  { NewTokenSource := fun _ _ => .error (.leaf "dial tcp: connection refused"),
    DefaultTokenSource := fun _ => .ok (.lib 7),
    libToken := fun _ => .ok adcToken }

/-- A world without any credentials: the specialized mechanism reports the
unsupported credentials type and the default credentials cannot be found. -/
def noCredsWorld : AuthWorld :=
  { NewTokenSource := fun _ _ => .error unsupportedErr,
    DefaultTokenSource := fun _ => .error (.leaf "google: could not find default credentials"),
    libToken := fun _ => .ok adcToken }

/-- A world in which the source is built and the token fetch fails. -/
def expiredWorld : AuthWorld :=
  { NewTokenSource := fun _ _ => .ok (.lib 1),
    DefaultTokenSource := fun _ => .ok (.lib 7),
    libToken := fun _ => .error (.leaf "oauth2: cannot fetch token") }

/-- A world whose default-credentials token holds the string `abc` in the field
`id_token` and expires at tick 99. -/
def abcWorld : AuthWorld :=
  { NewTokenSource := fun _ _ => .error unsupportedErr,
    DefaultTokenSource := fun _ => .ok (.lib 7),
    libToken := fun _ =>
      .ok { AccessToken := "ya29.access", TokenType := "Bearer", RefreshToken := "r",
            Expiry := ⟨99⟩,
            extra := fun k => if k = "id_token" then GoAny.string "abc" else GoAny.nil } }

/-- A world whose default-credentials token holds a number in the field `id_token`. -/
def numericWorld : AuthWorld :=
  { NewTokenSource := fun _ _ => .error unsupportedErr,
    DefaultTokenSource := fun _ => .ok (.lib 7),
    libToken := fun _ =>
      .ok { AccessToken := "ya29.access", TokenType := "Bearer", RefreshToken := "",
            Expiry := ⟨42⟩,
            extra := fun k => if k = "id_token" then GoAny.int64 12345 else GoAny.nil } }

/-- The fields of a form-encoded token response that carries no `id_token`. -/
def formValues : String → Option (List String) :=
  fun k =>
    if k = "access_token" then some ["ya29.access"]
    else if k = "token_type" then some ["Bearer"]
    else if k = "expires_in" then some ["3600"]
    else none

/-- The token the library builds from the response `formValues`. -/
def formToken (parseFloatOk : String → Bool) : Token :=
  { AccessToken := "ya29.access", TokenType := "Bearer", RefreshToken := "",
    Expiry := ⟨3600⟩, extra := TokenRaw.Extra parseFloatOk (.form formValues) }

/-- A world whose default-credentials token is `formToken`. -/
def formWorld (parseFloatOk : String → Bool) : AuthWorld :=
  { NewTokenSource := fun _ _ => .error unsupportedErr,
    DefaultTokenSource := fun _ => .ok (.lib 7),
    libToken := fun _ => .ok (formToken parseFloatOk) }

/-- The fields of a JSON token response that carries no `id_token`. -/
def jsonFields : String → Option GoAny :=
  fun k =>
    if k = "access_token" then some (GoAny.string "ya29.access")
    else if k = "token_type" then some (GoAny.string "Bearer")
    else if k = "expires_in" then some (GoAny.other "float64")
    else none

/-- The token the library builds from the response `jsonFields`. -/
def jsonToken : Token :=
  { AccessToken := "ya29.access", TokenType := "Bearer", RefreshToken := "",
    Expiry := ⟨3600⟩, extra := TokenRaw.Extra (fun _ => true) (.json jsonFields) }

/-- A world whose default-credentials token is `jsonToken`. -/
def jsonWorld : AuthWorld :=
  { NewTokenSource := fun _ _ => .error unsupportedErr,
    DefaultTokenSource := fun _ => .ok (.lib 7),
    libToken := fun _ => .ok jsonToken }

/-- A request that already carries two `Authorization` values and one other header. -/
def sampleRequest : Request :=
  { Method := "GET", URL := "https://service.example/run",
    Header := fun k =>
      if k = "Authorization" then some ["Basic old", "Bearer older"]
      else if k = "Accept" then some ["text/plain", "application/json"]
      else none,
    Body := "payload", ctx := ⟨0⟩ }

/-- An inner transport that answers every request with status 200. -/
def okTransport : RoundTripper :=
  fun _ => (some { StatusCode := 200, Body := "ok" }, none)

/-- A process environment in which `GOOGLE_CLOUD_PROJECT` is `proj-123`, with a metadata
service that would answer `proj-456`. -/
def shellWorld : ProjectWorld :=
  { environ := fun k => if k = "GOOGLE_CLOUD_PROJECT" then some "proj-123" else none,
    ProjectIDWithContext := fun _ => .ok "proj-456" }

/-- A process environment without `GOOGLE_CLOUD_PROJECT`, with a metadata service that
answers `proj-456`. -/
def gceWorld : ProjectWorld :=
  { environ := fun _ => none,
    ProjectIDWithContext := fun _ => .ok "proj-456" }

/-- A process environment in which `GOOGLE_CLOUD_PROJECT` is set to the empty string,
with a metadata service that cannot be reached. -/
def offlineWorld : ProjectWorld :=
  { environ := fun k => if k = "GOOGLE_CLOUD_PROJECT" then some "" else none,
    ProjectIDWithContext := fun _ => .error (.leaf "metadata: not defined") }

/-! ## Lemmas on the library models -/

theorem containsChars_iff_infix (substr l : List Char) :
    containsChars substr l = true ↔ substr <:+: l := by
  induction l with
  | nil =>
    cases substr <;> simp [containsChars, List.isPrefixOf]
  | cons c cs ih =>
    simp only [containsChars, Bool.or_eq_true, ih, List.infix_cons_iff,
      List.isPrefixOf_iff_prefix]

theorem stringsContains_iff_infix (s substr : String) :
    stringsContains s substr = true ↔ substr.toList <:+: s.toList :=
  containsChars_iff_infix _ _

theorem canonical_Authorization :
    CanonicalMIMEHeaderKey "Authorization" = "Authorization" := by
  decide

theorem CanonicalMIMEHeaderKey_samples :
    CanonicalMIMEHeaderKey "authorization" = "Authorization" ∧
      CanonicalMIMEHeaderKey "content-type" = "Content-Type" ∧
      CanonicalMIMEHeaderKey "content type" = "content type" := by
  decide

theorem stringsContains_samples :
    stringsContains "x idtoken: unsupported credentials type y"
        "idtoken: unsupported credentials type" = true ∧
      stringsContains "idtoken: unsupported credential type"
        "idtoken: unsupported credentials type" = false ∧
      stringsContains "" "idtoken: unsupported credentials type" = false := by
  decide

theorem Header_Set_Authorization (h : Header) (value : String) :
    Header.Set h "Authorization" value "Authorization" = some [value] := by
  simp [Header.Set, canonical_Authorization]

theorem Header_Set_other (h : Header) (value k : String) (hk : k ≠ "Authorization") :
    Header.Set h "Authorization" value k = h k := by
  simp [Header.Set, canonical_Authorization, hk]

theorem strconvParseInt_samples :
    strconvParseInt "" = none ∧ strconvParseInt "+" = none ∧
      strconvParseInt "3600" = some 3600 ∧ strconvParseInt "-17" = some (-17) ∧
      strconvParseInt "+5" = some 5 ∧ strconvParseInt "1_0" = none ∧
      strconvParseInt "abc" = none ∧
      strconvParseInt "9223372036854775807" = some 9223372036854775807 ∧
      strconvParseInt "9223372036854775808" = none ∧
      strconvParseInt "-9223372036854775808" = some (-9223372036854775808) := by
  decide

theorem stringsTrimSpace_samples :
    stringsTrimSpace "" = "" ∧ stringsTrimSpace "  12\t\n" = "12" ∧
      stringsTrimSpace " a b " = "a b" := by
  decide

theorem TokenRaw_Extra_samples (parseFloatOk : String → Bool) :
    TokenRaw.Extra parseFloatOk (.form formValues) "token_type" = GoAny.string "Bearer" ∧
      TokenRaw.Extra parseFloatOk (.form formValues) "expires_in" = GoAny.int64 3600 ∧
      TokenRaw.Extra parseFloatOk (.json jsonFields) "token_type" = GoAny.string "Bearer" ∧
      TokenRaw.Extra parseFloatOk (.json jsonFields) "id_token" = GoAny.nil := by
  exact ⟨rfl, rfl, rfl, rfl⟩

theorem TokenRaw_Extra_form_absent (parseFloatOk : String → Bool)
    (values : String → Option (List String)) (key : String) (h : values key = none) :
    TokenRaw.Extra parseFloatOk (.form values) key = GoAny.string "" := by
  have hv : urlValuesGet values key = "" := by simp [urlValuesGet, h]
  have hs : stringsTrimSpace "" = "" := by decide
  have hp : strconvParseInt "" = none := by decide
  simp only [TokenRaw.Extra, hv, hs, hp]
  rfl

theorem TokenSource_Token_calls (w : AuthWorld) (ts : TokenSource) :
    ∀ c ∈ (ts.Token w).2, ∃ h, c = Call.libToken h := by
  induction ts with
  | lib h =>
    intro c hc
    simp [TokenSource.Token] at hc
    exact ⟨h, hc⟩
  | idTokenSource inner ih =>
    intro c hc
    rw [TokenSource.Token, idTokenSource.Token] at hc
    split at hc
    · rename_i err calls heq
      apply ih
      rw [heq]
      exact hc
    · rename_i token calls heq
      split at hc <;>
      · apply ih
        rw [heq]
        exact hc
  | reuse new ih =>
    intro c hc
    rw [TokenSource.Token] at hc
    exact ih c hc

theorem TokenSource_Token_no_transport (w : AuthWorld) (ts : TokenSource) :
    (ts.Token w).2.filter Call.isTransport = [] := by
  rw [List.filter_eq_nil_iff]
  intro c hc
  obtain ⟨h, rfl⟩ := TokenSource_Token_calls w ts c hc
  simp [Call.isTransport]

theorem IDTokenTokenSource_no_transport (w : AuthWorld) (ctx : Context) (audience : String) :
    (IDTokenTokenSource w ctx audience).2.filter Call.isTransport = [] := by
  unfold IDTokenTokenSource
  split
  · split
    · simp [Call.isTransport]
    · split <;> simp [Call.isTransport]
  · simp [Call.isTransport]

/-! ## `IDTokenTokenSource` -/

/-- C1: when the specialized mechanism `idtoken.NewTokenSource` fails with `e`, the
fallback `google.DefaultTokenSource` is called if and only if the text of `e` contains
`idtoken: unsupported credentials type`; when it does not, the function returns no
token source and the error `e` itself, and its only outside call is the one to the
specialized mechanism. -/
theorem IDTokenTokenSource_fallback_iff_unsupported (w : AuthWorld) (ctx : Context)
    (audience : String) (e : GoError) (h : w.NewTokenSource ctx audience = .error e) :
    ((∃ c ∈ (IDTokenTokenSource w ctx audience).2, c.isDefaultTokenSource = true) ↔
        "idtoken: unsupported credentials type".toList <:+: e.Error.toList) ∧
      (¬ "idtoken: unsupported credentials type".toList <:+: e.Error.toList →
        IDTokenTokenSource w ctx audience =
          (.error e, [Call.idtokenNewTokenSource ctx audience])) := by
  rw [← stringsContains_iff_infix]
  unfold IDTokenTokenSource
  rw [h]
  by_cases hc : stringsContains e.Error "idtoken: unsupported credentials type" = true
  · simp only [hc, Bool.not_true, Bool.false_eq_true, if_false]
    cases w.DefaultTokenSource ctx <;> simp [Call.isDefaultTokenSource]
  · simp [hc, Call.isDefaultTokenSource]

theorem IDTokenTokenSource_fallback_iff_unsupported_witness :
    (brokenWorld.NewTokenSource ⟨0⟩ "aud" = .error (.leaf "dial tcp: connection refused") ∧
      IDTokenTokenSource brokenWorld ⟨0⟩ "aud" =
        (.error (.leaf "dial tcp: connection refused"),
          [Call.idtokenNewTokenSource ⟨0⟩ "aud"])) ∧
    (userWorld.NewTokenSource ⟨0⟩ "aud" = .error unsupportedErr ∧
      ∃ c ∈ (IDTokenTokenSource userWorld ⟨0⟩ "aud").2, c.isDefaultTokenSource = true) :=
  ⟨⟨rfl, (IDTokenTokenSource_fallback_iff_unsupported brokenWorld ⟨0⟩ "aud"
      (.leaf "dial tcp: connection refused") rfl).2 (by
        rw [← stringsContains_iff_infix]; decide)⟩,
    ⟨rfl, (IDTokenTokenSource_fallback_iff_unsupported userWorld ⟨0⟩ "aud"
      unsupportedErr rfl).1.mpr (by
        rw [← stringsContains_iff_infix]; decide)⟩⟩

/-- C2: when the specialized mechanism `idtoken.NewTokenSource` succeeds with the source
`ts`, the function returns `ts` itself without error, its only outside call is the one
to the specialized mechanism, and `google.DefaultTokenSource` is not called. -/
theorem IDTokenTokenSource_success_direct (w : AuthWorld) (ctx : Context)
    (audience : String) (ts : TokenSource) (h : w.NewTokenSource ctx audience = .ok ts) :
    IDTokenTokenSource w ctx audience = (.ok ts, [Call.idtokenNewTokenSource ctx audience]) ∧
      ∀ c ∈ (IDTokenTokenSource w ctx audience).2, c.isDefaultTokenSource = false := by
  unfold IDTokenTokenSource
  rw [h]
  simp [Call.isDefaultTokenSource]

theorem IDTokenTokenSource_success_direct_witness :
    saWorld.NewTokenSource ⟨0⟩ "aud" = .ok (.lib 1) ∧
      IDTokenTokenSource saWorld ⟨0⟩ "aud" =
        (.ok (.lib 1), [Call.idtokenNewTokenSource ⟨0⟩ "aud"]) :=
  ⟨rfl, (IDTokenTokenSource_success_direct saWorld ⟨0⟩ "aud" (.lib 1) rfl).1⟩

/-- C9 as stated fails: in a world where the specialized mechanism reports the
unsupported credentials type and `google.DefaultTokenSource` fails with `e`, the
function returns `e` itself, which is not an error that wraps `e`. -/
theorem IDTokenTokenSource_fallback_failure_not_wrapped :
    noCredsWorld.NewTokenSource ⟨0⟩ "aud" = .error unsupportedErr ∧
      stringsContains unsupportedErr.Error "idtoken: unsupported credentials type" = true ∧
      noCredsWorld.DefaultTokenSource ⟨0⟩ =
        .error (.leaf "google: could not find default credentials") ∧
      (IDTokenTokenSource noCredsWorld ⟨0⟩ "aud").1 =
        .error (.leaf "google: could not find default credentials") ∧
      ¬ ∃ err, (IDTokenTokenSource noCredsWorld ⟨0⟩ "aud").1 = .error err ∧
          err ≠ .leaf "google: could not find default credentials" ∧
          err.Unwrap = some (.leaf "google: could not find default credentials") := by
  have h3 : (IDTokenTokenSource noCredsWorld ⟨0⟩ "aud").1 =
      .error (.leaf "google: could not find default credentials") := rfl
  refine ⟨rfl, by decide, rfl, h3, ?_⟩
  rintro ⟨err, h1, h2, -⟩
  rw [h3] at h1
  exact h2 (Except.error.inj h1).symm

/-- C9, amended: a failure of the specialized mechanism other than the unsupported
credentials type is returned as it is, and so is a failure of the fallback: when the
specialized mechanism reports the unsupported credentials type and
`google.DefaultTokenSource` fails with `e`, the function returns no token source and
the error `e` itself, after exactly these two outside calls. -/
theorem IDTokenTokenSource_errors_as_is (w : AuthWorld) (ctx : Context)
    (audience : String) (e0 : GoError) (h : w.NewTokenSource ctx audience = .error e0) :
    (stringsContains e0.Error "idtoken: unsupported credentials type" = false →
        (IDTokenTokenSource w ctx audience).1 = .error e0) ∧
      (stringsContains e0.Error "idtoken: unsupported credentials type" = true →
        ∀ e, w.DefaultTokenSource ctx = .error e →
          IDTokenTokenSource w ctx audience =
            (.error e, [Call.idtokenNewTokenSource ctx audience,
              Call.googleDefaultTokenSource ctx])) := by
  unfold IDTokenTokenSource
  rw [h]
  constructor
  · intro hc
    simp [hc]
  · intro hc e he
    simp [hc, he]

theorem IDTokenTokenSource_errors_as_is_witness :
    noCredsWorld.NewTokenSource ⟨0⟩ "aud" = .error unsupportedErr ∧
      IDTokenTokenSource noCredsWorld ⟨0⟩ "aud" =
        (.error (.leaf "google: could not find default credentials"),
          [Call.idtokenNewTokenSource ⟨0⟩ "aud", Call.googleDefaultTokenSource ⟨0⟩]) :=
  ⟨rfl, (IDTokenTokenSource_errors_as_is noCredsWorld ⟨0⟩ "aud" unsupportedErr rfl).2
    (by decide) _ rfl⟩

/-! ## `idTokenSource.Token` -/

/-- C3: when the wrapped source returns a token whose extra field `id_token` is the
string `s` (possibly empty) and whose expiry is `E`, `idTokenSource.Token` returns
without error the token with `AccessToken = s`, `TokenType = "Bearer"` and
`Expiry = E`, all other fields zero, and makes no outside call of its own. -/
theorem idTokenSource_Token_success (w : AuthWorld) (ts : TokenSource) (token : Token)
    (calls : List Call) (s : String) (E : Time)
    (hts : ts.Token w = (.ok token, calls))
    (hid : token.Extra "id_token" = GoAny.string s) (hexp : token.Expiry = E) :
    idTokenSource.Token w ts =
      (.ok { AccessToken := s, TokenType := "Bearer", RefreshToken := "", Expiry := E,
             extra := fun _ => GoAny.nil }, calls) := by
  rw [idTokenSource.Token, hts]
  simp [hid, hexp, GoAny.assertString]

theorem idTokenSource_Token_success_witness :
    (TokenSource.lib 7).Token abcWorld =
        (.ok { AccessToken := "ya29.access", TokenType := "Bearer", RefreshToken := "r",
               Expiry := ⟨99⟩,
               extra := fun k => if k = "id_token" then GoAny.string "abc" else GoAny.nil },
          [Call.libToken 7]) ∧
      idTokenSource.Token abcWorld (.lib 7) =
        (.ok { AccessToken := "abc", TokenType := "Bearer", RefreshToken := "",
               Expiry := ⟨99⟩, extra := fun _ => GoAny.nil }, [Call.libToken 7]) :=
  ⟨by rw [TokenSource.Token]; rfl,
    idTokenSource_Token_success abcWorld (.lib 7)
      { AccessToken := "ya29.access", TokenType := "Bearer", RefreshToken := "r",
        Expiry := ⟨99⟩,
        extra := fun k => if k = "id_token" then GoAny.string "abc" else GoAny.nil }
      [Call.libToken 7] "abc" ⟨99⟩ (by rw [TokenSource.Token]; rfl) rfl rfl⟩

/-- C4 as stated fails: a token built from a form-encoded response in which `id_token`
is absent is answered by `Extra` with the empty string, so `idTokenSource.Token` returns
a token with an empty `AccessToken` and no error instead of the error
`token did not contain an id_token`. -/
theorem idTokenSource_Token_absent_form_field :
    formValues "id_token" = none ∧
      (∀ parseFloatOk, (TokenSource.lib 7).Token (formWorld parseFloatOk) =
        (.ok (formToken parseFloatOk), [Call.libToken 7])) ∧
      (∀ parseFloatOk, (formToken parseFloatOk).Extra "id_token" = GoAny.string "") ∧
      (∀ parseFloatOk, idTokenSource.Token (formWorld parseFloatOk) (.lib 7) =
        (.ok { AccessToken := "", TokenType := "Bearer", RefreshToken := "",
               Expiry := ⟨3600⟩, extra := fun _ => GoAny.nil }, [Call.libToken 7])) ∧
      (∀ parseFloatOk, (idTokenSource.Token (formWorld parseFloatOk) (.lib 7)).1 ≠
        .error (.leaf "token did not contain an id_token")) := by
  have hx : ∀ parseFloatOk, (formToken parseFloatOk).Extra "id_token" = GoAny.string "" :=
    fun parseFloatOk => TokenRaw_Extra_form_absent parseFloatOk formValues "id_token" rfl
  have ht : ∀ parseFloatOk, (TokenSource.lib 7).Token (formWorld parseFloatOk) =
      (.ok (formToken parseFloatOk), [Call.libToken 7]) := by
    intro parseFloatOk
    rw [TokenSource.Token]
    rfl
  have hr : ∀ parseFloatOk, idTokenSource.Token (formWorld parseFloatOk) (.lib 7) =
      (.ok { AccessToken := "", TokenType := "Bearer", RefreshToken := "",
             Expiry := ⟨3600⟩, extra := fun _ => GoAny.nil }, [Call.libToken 7]) := by
    intro parseFloatOk
    rw [idTokenSource.Token, ht]
    dsimp only
    rw [hx]
    rfl
  refine ⟨rfl, ht, hx, hr, ?_⟩
  intro parseFloatOk
  rw [hr]
  simp

/-- C4, amended: when the wrapped source returns a token, `idTokenSource.Token` returns
no token and the error `token did not contain an id_token`, which wraps nothing,
exactly when `Extra("id_token")` is not a string. That is the case for a token without
raw data, and for a token with JSON raw data in which `id_token` is absent or holds a
value that is not a string. -/
theorem idTokenSource_Token_missing (w : AuthWorld) (ts : TokenSource) (token : Token)
    (calls : List Call) (hts : ts.Token w = (.ok token, calls)) :
    ((∀ s, token.Extra "id_token" ≠ GoAny.string s) ↔
        idTokenSource.Token w ts =
          (.error (.leaf "token did not contain an id_token"), calls)) ∧
      (∀ parseFloatOk raw, token.extra = TokenRaw.Extra parseFloatOk raw →
        (raw = TokenRaw.nil ∨
          ∃ fields, raw = TokenRaw.json fields ∧
            ∀ s, fields "id_token" ≠ some (GoAny.string s)) →
        idTokenSource.Token w ts =
          (.error (.leaf "token did not contain an id_token"), calls)) := by
  have key : (∀ s, token.Extra "id_token" ≠ GoAny.string s) ↔
      idTokenSource.Token w ts =
        (.error (.leaf "token did not contain an id_token"), calls) := by
    rw [idTokenSource.Token, hts]
    dsimp only
    cases hx : token.Extra "id_token" <;> simp [GoAny.assertString, fmtErrorf]
  refine ⟨key, ?_⟩
  intro parseFloatOk raw hraw habs
  apply key.mp
  intro s hs
  rw [Token.Extra, hraw] at hs
  rcases habs with h | ⟨fields, h, hf⟩
  · subst h
    simp [TokenRaw.Extra] at hs
  · subst h
    cases hk : fields "id_token" with
    | none => simp [TokenRaw.Extra, hk] at hs
    | some v =>
      simp only [TokenRaw.Extra, hk, Option.getD_some] at hs
      exact hf s (by rw [hk, hs])

theorem idTokenSource_Token_missing_witness :
    ((TokenSource.lib 1).Token saWorld =
        (.ok { AccessToken := "abc", TokenType := "Bearer", RefreshToken := "",
               Expiry := ⟨42⟩, extra := fun _ => GoAny.nil }, [Call.libToken 1]) ∧
      idTokenSource.Token saWorld (.lib 1) =
        (.error (.leaf "token did not contain an id_token"), [Call.libToken 1])) ∧
    ((TokenSource.lib 7).Token numericWorld =
        (.ok { AccessToken := "ya29.access", TokenType := "Bearer", RefreshToken := "",
               Expiry := ⟨42⟩,
               extra := fun k => if k = "id_token" then GoAny.int64 12345 else GoAny.nil },
          [Call.libToken 7]) ∧
      idTokenSource.Token numericWorld (.lib 7) =
        (.error (.leaf "token did not contain an id_token"), [Call.libToken 7])) ∧
    ((TokenSource.lib 7).Token jsonWorld = (.ok jsonToken, [Call.libToken 7]) ∧
      jsonFields "id_token" = none ∧
      idTokenSource.Token jsonWorld (.lib 7) =
        (.error (.leaf "token did not contain an id_token"), [Call.libToken 7])) :=
  ⟨⟨by rw [TokenSource.Token]; rfl,
    (idTokenSource_Token_missing saWorld (.lib 1) _ [Call.libToken 1]
      (by rw [TokenSource.Token]; rfl)).1.mp (fun s hs => by simp [Token.Extra] at hs)⟩,
   ⟨by rw [TokenSource.Token]; rfl,
    (idTokenSource_Token_missing numericWorld (.lib 7) _ [Call.libToken 7]
      (by rw [TokenSource.Token]; rfl)).1.mp (fun s hs => by simp [Token.Extra] at hs)⟩,
   ⟨by rw [TokenSource.Token]; rfl, rfl,
    (idTokenSource_Token_missing jsonWorld (.lib 7) jsonToken [Call.libToken 7]
      (by rw [TokenSource.Token]; rfl)).2 (fun _ => true) (.json jsonFields) rfl
      (Or.inr ⟨jsonFields, rfl, fun s hs => by simp [jsonFields] at hs⟩)⟩⟩

/-! ## `AuthTransport.RoundTrip` -/

/-- C5: when the token source is built and its token has access token `a`, the inner
transport is called exactly once, with a request whose `Authorization` entry is the
one-element list `["Bearer " + a]` whatever the incoming request held there, and
`RoundTrip` returns the response and the error of that call unchanged. -/
theorem RoundTrip_sets_bearer (w : AuthWorld) (t : AuthTransport) (req : Request)
    (tokenSource : TokenSource) (calls calls2 : List Call) (token : Token) (a : String)
    (hsrc : IDTokenTokenSource w req.Context t.Audience = (.ok tokenSource, calls))
    (htok : tokenSource.Token w = (.ok token, calls2)) (ha : token.AccessToken = a) :
    ∃ fwd : Request,
      (t.RoundTrip w req).calls.filter Call.isTransport = [Call.transportRoundTrip fwd] ∧
      fwd.Header "Authorization" = some ["Bearer " ++ a] ∧
      (t.RoundTrip w req).resp = (t.Transport fwd).1 ∧
      (t.RoundTrip w req).err = (t.Transport fwd).2 := by
  have h1 := IDTokenTokenSource_no_transport w req.Context t.Audience
  have h2 := TokenSource_Token_no_transport w tokenSource
  rw [hsrc] at h1
  rw [htok] at h2
  simp only at h1 h2
  refine ⟨{ req with Header := req.Header.Set "Authorization" ("Bearer " ++ a) }, ?_, ?_, ?_, ?_⟩
  · simp [AuthTransport.RoundTrip, hsrc, htok, ha, List.filter_append, h1, h2,
      Call.isTransport]
  · exact Header_Set_Authorization req.Header ("Bearer " ++ a)
  · simp [AuthTransport.RoundTrip, hsrc, htok, ha]
  · simp [AuthTransport.RoundTrip, hsrc, htok, ha]

theorem RoundTrip_sets_bearer_witness :
    sampleRequest.Header "Authorization" = some ["Basic old", "Bearer older"] ∧
      ∃ fwd : Request,
        (AuthTransport.RoundTrip userWorld ⟨okTransport, "aud"⟩ sampleRequest).calls.filter
            Call.isTransport = [Call.transportRoundTrip fwd] ∧
        fwd.Header "Authorization" = some ["Bearer " ++ "xyz"] ∧
        (AuthTransport.RoundTrip userWorld ⟨okTransport, "aud"⟩ sampleRequest).resp =
          (okTransport fwd).1 ∧
        (AuthTransport.RoundTrip userWorld ⟨okTransport, "aud"⟩ sampleRequest).err =
          (okTransport fwd).2 :=
  ⟨rfl, RoundTrip_sets_bearer userWorld ⟨okTransport, "aud"⟩ sampleRequest
    (.reuse (.idTokenSource (.lib 7)))
    [Call.idtokenNewTokenSource ⟨0⟩ "aud", Call.googleDefaultTokenSource ⟨0⟩]
    [Call.libToken 7]
    { AccessToken := "xyz", TokenType := "Bearer", RefreshToken := "",
      Expiry := ⟨1700000000⟩, extra := fun _ => GoAny.nil }
    "xyz" rfl
    (by rw [TokenSource.Token, TokenSource.Token, idTokenSource.Token, TokenSource.Token]; rfl)
    rfl⟩

/-- C6: when building the token source fails with `e`, `RoundTrip` returns no response
and an error that wraps `e` with the text `failed to create token source: ` followed
by the text of `e`; when the source is built and its `Token()` fails with `e`, it
returns no response and an error that wraps `e` with the text `failed to get token: `
followed by the text of `e`. In both cases the inner transport is not called and the
request is left as it was. -/
theorem RoundTrip_failure_paths (w : AuthWorld) (t : AuthTransport) (req : Request) :
    (∀ e calls, IDTokenTokenSource w req.Context t.Audience = (.error e, calls) →
        (t.RoundTrip w req).resp = none ∧
        (t.RoundTrip w req).err =
          some (.wrap ("failed to create token source: " ++ e.Error) e) ∧
        (t.RoundTrip w req).calls.filter Call.isTransport = [] ∧
        (t.RoundTrip w req).req = req) ∧
      (∀ tokenSource calls e calls2,
        IDTokenTokenSource w req.Context t.Audience = (.ok tokenSource, calls) →
        tokenSource.Token w = (.error e, calls2) →
        (t.RoundTrip w req).resp = none ∧
        (t.RoundTrip w req).err = some (.wrap ("failed to get token: " ++ e.Error) e) ∧
        (t.RoundTrip w req).calls.filter Call.isTransport = [] ∧
        (t.RoundTrip w req).req = req) := by
  constructor
  · intro e calls hsrc
    have h1 := IDTokenTokenSource_no_transport w req.Context t.Audience
    rw [hsrc] at h1
    simp only at h1
    simp [AuthTransport.RoundTrip, hsrc, fmtErrorfW, h1]
  · intro tokenSource calls e calls2 hsrc htok
    have h1 := IDTokenTokenSource_no_transport w req.Context t.Audience
    have h2 := TokenSource_Token_no_transport w tokenSource
    rw [hsrc] at h1
    rw [htok] at h2
    simp only at h1 h2
    simp [AuthTransport.RoundTrip, hsrc, htok, fmtErrorfW, List.filter_append, h1, h2]

theorem RoundTrip_failure_paths_witness :
    ((AuthTransport.RoundTrip noCredsWorld ⟨okTransport, "aud"⟩ sampleRequest).resp = none ∧
      (AuthTransport.RoundTrip noCredsWorld ⟨okTransport, "aud"⟩ sampleRequest).err =
        some (.wrap ("failed to create token source: " ++
            "google: could not find default credentials")
          (.leaf "google: could not find default credentials")) ∧
      (AuthTransport.RoundTrip noCredsWorld ⟨okTransport, "aud"⟩ sampleRequest).calls.filter
          Call.isTransport = [] ∧
      (AuthTransport.RoundTrip noCredsWorld ⟨okTransport, "aud"⟩ sampleRequest).req =
        sampleRequest) ∧
    ((AuthTransport.RoundTrip expiredWorld ⟨okTransport, "aud"⟩ sampleRequest).resp = none ∧
      (AuthTransport.RoundTrip expiredWorld ⟨okTransport, "aud"⟩ sampleRequest).err =
        some (.wrap ("failed to get token: " ++ "oauth2: cannot fetch token")
          (.leaf "oauth2: cannot fetch token")) ∧
      (AuthTransport.RoundTrip expiredWorld ⟨okTransport, "aud"⟩ sampleRequest).calls.filter
          Call.isTransport = [] ∧
      (AuthTransport.RoundTrip expiredWorld ⟨okTransport, "aud"⟩ sampleRequest).req =
        sampleRequest) :=
  ⟨(RoundTrip_failure_paths noCredsWorld ⟨okTransport, "aud"⟩ sampleRequest).1
      (.leaf "google: could not find default credentials")
      [Call.idtokenNewTokenSource ⟨0⟩ "aud", Call.googleDefaultTokenSource ⟨0⟩] rfl,
    (RoundTrip_failure_paths expiredWorld ⟨okTransport, "aud"⟩ sampleRequest).2
      (.lib 1) [Call.idtokenNewTokenSource ⟨0⟩ "aud"] (.leaf "oauth2: cannot fetch token")
      [Call.libToken 1] rfl (by rw [TokenSource.Token]; rfl)⟩

/-- C10: on the success path the request handed to the inner transport, which is also
the request the caller sees afterwards, has the same header entry as the incoming
request under every key other than `Authorization` (same presence, same values in the
same order), and the same method, URL, body and context. -/
theorem RoundTrip_header_frame (w : AuthWorld) (t : AuthTransport) (req : Request)
    (tokenSource : TokenSource) (calls calls2 : List Call) (token : Token)
    (hsrc : IDTokenTokenSource w req.Context t.Audience = (.ok tokenSource, calls))
    (htok : tokenSource.Token w = (.ok token, calls2)) :
    ∃ fwd : Request,
      (t.RoundTrip w req).calls.filter Call.isTransport = [Call.transportRoundTrip fwd] ∧
      (t.RoundTrip w req).req = fwd ∧
      (∀ k, k ≠ "Authorization" → fwd.Header k = req.Header k) ∧
      fwd.Method = req.Method ∧ fwd.URL = req.URL ∧ fwd.Body = req.Body ∧
      fwd.Context = req.Context := by
  have h1 := IDTokenTokenSource_no_transport w req.Context t.Audience
  have h2 := TokenSource_Token_no_transport w tokenSource
  rw [hsrc] at h1
  rw [htok] at h2
  simp only at h1 h2
  refine ⟨{ req with Header := req.Header.Set "Authorization" ("Bearer " ++ token.AccessToken) },
    ?_, ?_, ?_, rfl, rfl, rfl, rfl⟩
  · simp [AuthTransport.RoundTrip, hsrc, htok, List.filter_append, h1, h2, Call.isTransport]
  · simp [AuthTransport.RoundTrip, hsrc, htok]
  · intro k hk
    exact Header_Set_other req.Header ("Bearer " ++ token.AccessToken) k hk

theorem RoundTrip_header_frame_witness :
    ∃ fwd : Request,
      (AuthTransport.RoundTrip saWorld ⟨okTransport, "aud"⟩ sampleRequest).calls.filter
          Call.isTransport = [Call.transportRoundTrip fwd] ∧
      (AuthTransport.RoundTrip saWorld ⟨okTransport, "aud"⟩ sampleRequest).req = fwd ∧
      (∀ k, k ≠ "Authorization" → fwd.Header k = sampleRequest.Header k) ∧
      fwd.Method = "GET" ∧ fwd.URL = "https://service.example/run" ∧ fwd.Body = "payload" ∧
      fwd.Context = ⟨0⟩ :=
  RoundTrip_header_frame saWorld ⟨okTransport, "aud"⟩ sampleRequest (.lib 1)
    [Call.idtokenNewTokenSource ⟨0⟩ "aud"] [Call.libToken 1]
    { AccessToken := "abc", TokenType := "Bearer", RefreshToken := "",
      Expiry := ⟨42⟩, extra := fun _ => GoAny.nil }
    rfl (by rw [TokenSource.Token]; rfl)

/-! ## `ProjectID` -/

/-- C7: when `GOOGLE_CLOUD_PROJECT` is set to a non-empty string `p`, `ProjectID`
returns `p` without error and makes no query to the metadata service, whatever that
service would answer. -/
theorem ProjectID_env_short_circuit (w : ProjectWorld) (ctx : Context) (p : String)
    (hp : p ≠ "") (henv : w.environ "GOOGLE_CLOUD_PROJECT" = some p) :
    ProjectID w ctx = ((p, none), []) := by
  simp [ProjectID, osGetenv, henv, hp]

theorem ProjectID_env_short_circuit_witness :
    "proj-123" ≠ "" ∧ shellWorld.environ "GOOGLE_CLOUD_PROJECT" = some "proj-123" ∧
      ProjectID shellWorld ⟨0⟩ = (("proj-123", none), []) :=
  ⟨by decide, rfl, ProjectID_env_short_circuit shellWorld ⟨0⟩ "proj-123" (by decide) rfl⟩

/-- C8: when `GOOGLE_CLOUD_PROJECT` is unset or set to the empty string, `ProjectID`
queries the metadata service exactly once; if the query returns `q` it returns `q`
without error; if the query fails with `e` it returns the empty string and an error
that wraps `e` with the text `project id: ` followed by the text of `e`. -/
theorem ProjectID_metadata_path (w : ProjectWorld) (ctx : Context)
    (henv : w.environ "GOOGLE_CLOUD_PROJECT" = none ∨
      w.environ "GOOGLE_CLOUD_PROJECT" = some "") :
    (ProjectID w ctx).2 = [MetadataCall.ProjectIDWithContext ctx] ∧
      (∀ q, w.ProjectIDWithContext ctx = .ok q → (ProjectID w ctx).1 = (q, none)) ∧
      (∀ e, w.ProjectIDWithContext ctx = .error e →
        (ProjectID w ctx).1 = ("", some (.wrap ("project id: " ++ e.Error) e))) := by
  have hget : osGetenv w "GOOGLE_CLOUD_PROJECT" = "" := by
    rcases henv with h | h <;> simp [osGetenv, h]
  unfold ProjectID
  simp only [hget]
  cases hq : w.ProjectIDWithContext ctx <;> simp [fmtErrorfW]

theorem ProjectID_metadata_path_witness :
    (gceWorld.environ "GOOGLE_CLOUD_PROJECT" = none ∧
      ProjectID gceWorld ⟨0⟩ = (("proj-456", none), [MetadataCall.ProjectIDWithContext ⟨0⟩])) ∧
    (offlineWorld.environ "GOOGLE_CLOUD_PROJECT" = some "" ∧
      (ProjectID offlineWorld ⟨0⟩).1 =
        ("", some (.wrap ("project id: " ++ "metadata: not defined")
          (.leaf "metadata: not defined")))) :=
  ⟨⟨rfl, Prod.ext ((ProjectID_metadata_path gceWorld ⟨0⟩ (Or.inl rfl)).2.1 "proj-456" rfl)
      (ProjectID_metadata_path gceWorld ⟨0⟩ (Or.inl rfl)).1⟩,
    ⟨rfl, (ProjectID_metadata_path offlineWorld ⟨0⟩ (Or.inr rfl)).2.2
      (.leaf "metadata: not defined") rfl⟩⟩

end GoogleCloud
